import Mathlib

/-!
Verification of the simple MCP server (src/src/index.ts).

The file embeds the two variants found in `src/src/index.ts`:
the SDK variant (an `McpServer` with a hand-rolled `WorkerMCPTransport`
and a Cloudflare Workers `fetch` handler) and the `McpAgent` variant
(`SimpleFastMCP`).  Both variants register the same five tools and two
resources over a state `{ counter, messages }`; their tool handlers are
textually identical up to state plumbing (`globalState` mutation versus
`this.setState`), so a single set of handler functions embeds both.  The
resources differ in one place: the SDK variant joins the message log
with the two-character string backslash-`n` (`join("\\n")`, line 207)
while the agent variant joins with a newline (`join("\n")`, line 474);
both joins are embedded separately.

JavaScript numbers are modelled as `Int` (all claim-relevant arithmetic
is integral); wall-clock timestamps (`new Date().toISOString()`) are an
external input and are passed in as an explicit `String` argument.
-/

/-- The server state: `let globalState = { counter: 0, messages: [] }`
(SDK variant, lines 6-9) and `type State = { counter; messages }`
(agent variant, lines 419-422). -/
structure ServerState where
  counter : Int
  messages : List String
deriving DecidableEq

/-- `{ counter: 0, messages: [] }` — the initial state of both variants. -/
def initialState : ServerState := { counter := 0, messages := [] }

/-- One element of a tool result's `content` array:
`{ type: "text", text: ... }`. -/
structure ContentItem where
  type : String
  text : String
deriving DecidableEq

/-- A tool handler's return value: `{ content: [...] }`. -/
structure ToolResult where
  content : List ContentItem
deriving DecidableEq

/-- One element of a resource result's `contents` array:
`{ uri, text, mimeType }`. -/
structure ResourceContent where
  uri : String
  text : String
  mimeType : String
deriving DecidableEq

/-- A resource handler's return value: `{ contents: [...] }`. -/
structure ResourceResult where
  contents : List ResourceContent
deriving DecidableEq

/-- The `add_to_counter` tool handler (SDK variant lines 44-60, agent
variant lines 489-507): `counter += amount`, push
`"Added {amount}: {old} → {new}"`, return
`"Successfully added {amount} to counter. New value: {new}"`. -/
def add_to_counter (amount : Int) (s : ServerState) : ServerState × ToolResult :=
  let oldValue := s.counter
  let newValue := oldValue + amount
  let message := "Added " ++ toString amount ++ ": " ++ toString oldValue ++ " → " ++ toString newValue
  ({ counter := newValue, messages := s.messages ++ [message] },
   { content := [{ type := "text",
                   text := "Successfully added " ++ toString amount ++ " to counter. New value: " ++ toString newValue }] })

/-- The `reset_counter` tool handler (SDK variant lines 74-86, agent
variant lines 515-530): `counter = 0`, push `"Counter reset to 0"`. -/
def reset_counter (s : ServerState) : ServerState × ToolResult :=
  ({ counter := 0, messages := s.messages ++ ["Counter reset to 0"] },
   { content := [{ type := "text", text := "Counter has been reset to 0" }] })

/-- The `get_time` tool handler (SDK variant lines 100-112, agent
variant lines 538-554); `now` is the external `new Date().toISOString()`. -/
def get_time (now : String) (s : ServerState) : ServerState × ToolResult :=
  ({ s with messages := s.messages ++ ["Time requested: " ++ now] },
   { content := [{ type := "text", text := "Current server time: " ++ now }] })

/-- The `send_message` tool handler (SDK variant lines 131-144, agent
variant lines 564-581); `timestamp` is the external
`new Date().toISOString()`. -/
def send_message (timestamp message : String) (s : ServerState) : ServerState × ToolResult :=
  let messageWithTime := "[" ++ timestamp ++ "] " ++ message
  ({ s with messages := s.messages ++ [messageWithTime] },
   { content := [{ type := "text", text := "Message stored: " ++ messageWithTime }] })

/-- The `get_message_count` tool handler (SDK variant lines 158-169,
agent variant lines 589-600): read-only, returns
`"Total messages stored: {count}"`. -/
def get_message_count (s : ServerState) : ServerState × ToolResult :=
  let count := s.messages.length
  (s, { content := [{ type := "text", text := "Total messages stored: " ++ toString count }] })

/-- The `counter` resource handler (SDK variant lines 181-191):
`"Current counter value: {counter}"`. -/
def counterResource (s : ServerState) : ResourceResult :=
  { contents := [{ uri := "mcp://resource/counter",
                   text := "Current counter value: " ++ toString s.counter,
                   mimeType := "text/plain" }] }

/-- The `messages` resource handler of the SDK variant (lines 202-212).
The source joins with `"\\n"` — the literal two-character sequence
backslash `n`, not a newline: `globalState.messages.join("\\n")`. -/
def messagesResource (s : ServerState) : ResourceResult :=
  { contents := [{ uri := "mcp://resource/messages",
                   text := "\\n".intercalate s.messages,
                   mimeType := "text/plain" }] }

/-- The `counter` resource handler of the agent variant (lines 451-461);
`uriHref` is the incoming `uri.href`. -/
def counterResourceAgent (uriHref : String) (s : ServerState) : ResourceResult :=
  { contents := [{ uri := uriHref,
                   text := "Current counter value: " ++ toString s.counter,
                   mimeType := "text/plain" }] }

/-- The `messages` resource handler of the agent variant (lines 469-479):
`this.state.messages.join("\n")` — a genuine newline separator. -/
def messagesResourceAgent (uriHref : String) (s : ServerState) : ResourceResult :=
  { contents := [{ uri := uriHref,
                   text := "\n".intercalate s.messages,
                   mimeType := "text/plain" }] }

/-- A tool invocation, abstracting over the external timestamp inputs. -/
inductive ToolOp where
  | add_to_counter (amount : Int)
  | reset_counter
  | get_time (now : String)
  | send_message (timestamp message : String)
  | get_message_count
deriving DecidableEq

/-- Run one tool invocation against the state. -/
def runTool : ToolOp → ServerState → ServerState × ToolResult
  | .add_to_counter a, s => add_to_counter a s
  | .reset_counter, s => reset_counter s
  | .get_time now, s => get_time now s
  | .send_message ts m, s => send_message ts m s
  | .get_message_count, s => get_message_count s

/-- Run the same tool invocation `n` times in a row, collecting the
results in call order. -/
def repeatTool (op : ToolOp) : Nat → ServerState → ServerState × List ToolResult
  | 0, s => (s, [])
  | n + 1, s =>
    let r := runTool op s
    let rest := repeatTool op n r.1
    (rest.1, r.2 :: rest.2)

/-- A JSON-RPC request/response `id` value (number or string; an absent
`id` is `none` at the use sites). -/
inductive JsonId where
  | num (n : Int)
  | str (s : String)
deriving DecidableEq

/-- The `arguments` object of a `tools/call` request, as consumed by the
registered handlers: an optional `amount` (number) and an optional
`message` (string); an absent field is `none`. -/
structure ToolArgs where
  amount : Option Int := none
  message : Option String := none
deriving DecidableEq

/-- The `params` object of a decoded request; each field is `none` when
absent from the JSON. -/
structure RequestParams where
  name : Option String := none
  uri : Option String := none
  arguments : Option ToolArgs := none
deriving DecidableEq

/-- A decoded JSON-RPC request body (`body` after `request.json()`):
`{ id, method, params }` with absent fields as `none`. -/
structure JsonRpcRequest where
  id : Option JsonId := none
  method : String
  params : Option RequestParams := none
deriving DecidableEq

/-- A JSON-RPC error object `{ code, message }`. -/
structure RpcError where
  code : Int
  message : String
deriving DecidableEq

/-- The `inputSchema` of a registered tool: property name ↦ declared
primitive type, plus the `required` list. -/
structure InputSchemaModel where
  properties : List (String × String)
  required : List String
deriving DecidableEq

/-- One entry of a `tools/list` result: `{ name, description, inputSchema }`. -/
structure ToolMeta where
  name : String
  description : String
  inputSchema : InputSchemaModel
deriving DecidableEq

/-- One entry of a `resources/list` result:
`{ name, description, uri, mimeType }`. -/
structure ResourceMeta where
  name : String
  description : String
  uri : String
  mimeType : String
deriving DecidableEq

/-- The `result` payload of a successful JSON-RPC response, one
constructor per `handleRequest` branch that produces a result. -/
inductive RpcResult where
  | initResult (protocolVersion serverName serverVersion : String)
  | toolsList (tools : List ToolMeta)
  | callResult (r : ToolResult)
  | resourcesList (resources : List ResourceMeta)
  | readResult (r : ResourceResult)
deriving DecidableEq

/-- A JSON-RPC response object; `id`, `result` and `error` are omitted
from the serialized JSON when `none`. -/
structure JsonRpcResponse where
  jsonrpc : String
  id : Option JsonId
  result : Option RpcResult
  error : Option RpcError
deriving DecidableEq

/-- An HTTP response body: plain text, a JSON-RPC object
(`Response.json`), or the `/health` JSON object
`{ status, timestamp, server, version, state: { counter, messageCount } }`. -/
inductive HttpBody where
  | text (s : String)
  | jsonRpc (r : JsonRpcResponse)
  | healthJson (status timestamp serverName version : String) (counter : Int) (messageCount : Nat)
deriving DecidableEq

/-- An HTTP response, modelling the status, the headers the code sets
explicitly (`Content-Type`, and `Access-Control-Allow-Origin` if it were
ever set), and the body. -/
structure HttpResponse where
  status : Nat
  contentType : Option String
  corsAllowOrigin : Option String
  body : HttpBody
deriving DecidableEq

/-- `Response.json(r)`: HTTP 200, `Content-Type: application/json`,
no other headers. -/
def jsonResponse (r : JsonRpcResponse) : HttpResponse :=
  { status := 200, contentType := some "application/json", corsAllowOrigin := none,
    body := .jsonRpc r }

/-- The response built by the `catch` branch of `handleRequest`
(lines 334-342): code -32700, message "Parse error", and no `id` field. -/
def parseErrorResponse : JsonRpcResponse :=
  { jsonrpc := "2.0", id := none, result := none, error := some { code := -32700, message := "Parse error" } }

/-- The five tools registered on the server, in registration order
(SDK variant lines 28-170), with the metadata surfaced by `tools/list`. -/
def registeredTools : List ToolMeta :=
  [{ name := "add_to_counter", description := "Add a number to the persistent counter",
     inputSchema := { properties := [("amount", "number")], required := ["amount"] } },
   { name := "reset_counter", description := "Reset the counter to zero",
     inputSchema := { properties := [], required := [] } },
   { name := "get_time", description := "Get the current server time",
     inputSchema := { properties := [], required := [] } },
   { name := "send_message", description := "Send a message to be stored on the server",
     inputSchema := { properties := [("message", "string")], required := ["message"] } },
   { name := "get_message_count", description := "Get the total number of messages stored",
     inputSchema := { properties := [], required := [] } }]

/-- The names of the registered tools. -/
def registeredToolNames : List String := registeredTools.map ToolMeta.name

/-- The two resources registered on the server (SDK variant
lines 173-213), with the metadata surfaced by `resources/list`. -/
def registeredResources : List ResourceMeta :=
  [{ name := "counter", description := "Current counter value",
     uri := "mcp://resource/counter", mimeType := "text/plain" },
   { name := "messages", description := "All stored messages",
     uri := "mcp://resource/messages", mimeType := "text/plain" }]

/-- Modelled from the spec: the SDK-internal `_callTool(toolName, args)`
used at line 267 is not part of this repository.  Per the spec
(§4.2, §4.4) it looks the name up in the tool registry (a miss throws),
validates the arguments against the tool's declared input shape (a
missing required field rejects before the handler runs), and invokes the
registered handler.  The handlers themselves are the embeddings above of
the handlers registered in src.  A thrown fault is modelled as
`.error`; `name` is `Option String` because `body.params.name` may be
absent (`undefined`), which also misses the registry. -/
def callTool (name : Option String) (args : ToolArgs) (now : String) (s : ServerState) :
    Except String (ServerState × ToolResult) :=
  if name = some "add_to_counter" then
    match args.amount with
    | some a => .ok (add_to_counter a s)
    | none => .error "Invalid arguments for tool add_to_counter"
  else if name = some "reset_counter" then .ok (reset_counter s)
  else if name = some "get_time" then .ok (get_time now s)
  else if name = some "send_message" then
    match args.message with
    | some m => .ok (send_message now m s)
    | none => .error "Invalid arguments for tool send_message"
  else if name = some "get_message_count" then .ok (get_message_count s)
  else .error "Tool not found"

/-- Modelled from the spec: the SDK-internal
`_readResource(resourceName, resourceUri)` used at line 307 is not part
of this repository.  Per the spec (§4.4) it resolves the name (the
trailing path segment computed at line 304) to a registered resource and
invokes its handler — the embeddings above of the handlers registered in
src; an unmatched name throws, modelled as `.error`.  Both resource
handlers are read-only. -/
def readResource (resourceName : String) (s : ServerState) : Except String ResourceResult :=
  if resourceName = "counter" then .ok (counterResource s)
  else if resourceName = "messages" then .ok (messagesResource s)
  else .error "Resource not found"

/-- `WorkerMCPTransport.handleRequest` (lines 219-343).  The HTTP method
check, then the decoded body dispatched on `body.method` (a JavaScript
`switch` on string equality).  `body = none` models a request body that
`request.json()` fails to parse; the `catch` branch (lines 334-342) then
returns `parseErrorResponse`.  The same `catch` also receives the
`TypeError` thrown when a branch reads a field of an absent
`body.params` (`body.params.name`, line 263; `body.params.uri` /
`resourceUri.split`, lines 302-304), so those paths return
`parseErrorResponse` as well.  `now` is the external clock passed to the
handlers; the returned pair is (response, updated global state). -/
def handleRequest (httpMethod : String) (body : Option JsonRpcRequest) (now : String)
    (s : ServerState) : HttpResponse × ServerState :=
  if httpMethod ≠ "POST" then
    ({ status := 405, contentType := none, corsAllowOrigin := none,
       body := .text "Method not allowed" }, s)
  else
    match body with
    | none => (jsonResponse parseErrorResponse, s)
    | some b =>
      if b.method = "initialize" then
        (jsonResponse { jsonrpc := "2.0", id := b.id,
                        result := some (.initResult "2024-11-05" "Simple MCP Server" "1.0.0"),
                        error := none }, s)
      else if b.method = "tools/list" then
        (jsonResponse { jsonrpc := "2.0", id := b.id,
                        result := some (.toolsList registeredTools), error := none }, s)
      else if b.method = "tools/call" then
        match b.params with
        | none => (jsonResponse parseErrorResponse, s)
        | some p =>
          let args := p.arguments.getD {}
          match callTool p.name args now s with
          | .ok r =>
            (jsonResponse { jsonrpc := "2.0", id := b.id,
                            result := some (.callResult r.2), error := none }, r.1)
          | .error e =>
            (jsonResponse { jsonrpc := "2.0", id := b.id, result := none,
                            error := some { code := -32603,
                                            message := "Tool execution failed: " ++ e } }, s)
      else if b.method = "resources/list" then
        (jsonResponse { jsonrpc := "2.0", id := b.id,
                        result := some (.resourcesList registeredResources), error := none }, s)
      else if b.method = "resources/read" then
        match b.params with
        | none => (jsonResponse parseErrorResponse, s)
        | some p =>
          match p.uri with
          | none => (jsonResponse parseErrorResponse, s)
          | some resourceUri =>
            let resourceName := (resourceUri.splitOn "/").getLastD ""
            match readResource resourceName s with
            | .ok r =>
              (jsonResponse { jsonrpc := "2.0", id := b.id,
                              result := some (.readResult r), error := none }, s)
            | .error e =>
              (jsonResponse { jsonrpc := "2.0", id := b.id, result := none,
                              error := some { code := -32603,
                                              message := "Resource read failed: " ++ e } }, s)
      else
        (jsonResponse { jsonrpc := "2.0", id := b.id, result := none,
                        error := some { code := -32601,
                                        message := "Method not found: " ++ b.method } }, s)

/-- The template literal returned by the `/` route of the SDK variant's
fetch handler (lines 375-406). -/
def rootInfoText (s : ServerState) : String :=
  "\n# Simple MCP Server\n\nThis is a Model Context Protocol server running on Cloudflare Workers.\n\n## Endpoints\n\n- `/mcp` - MCP protocol endpoint\n- `/health` - Health check\n\n## Tools Available\n\n1. **add_to_counter** - Add a number to the persistent counter\n2. **reset_counter** - Reset the counter to zero\n3. **get_time** - Get current server time\n4. **send_message** - Store a message on the server\n5. **get_message_count** - Get total number of stored messages\n\n## Resources Available\n\n1. **counter** - Current counter value\n2. **messages** - Message history\n\n## Usage\n\nConnect your MCP client to the `/mcp` endpoint.\n\n## Current State\n\n- Counter: " ++ toString s.counter ++ "\n- Messages: " ++ toString s.messages.length ++ "\n      "

/-- The SDK variant's Cloudflare Workers `fetch` handler (lines 350-413):
route on `pathname`, delegating `/mcp` to the transport; `/health` and
`/` are read-only; anything else is 404.  None of the routes sets a CORS
header, and no route special-cases the OPTIONS method. -/
def fetchHandler (pathname httpMethod : String) (body : Option JsonRpcRequest) (now : String)
    (s : ServerState) : HttpResponse × ServerState :=
  if pathname = "/mcp" then handleRequest httpMethod body now s
  else if pathname = "/health" then
    ({ status := 200, contentType := some "application/json", corsAllowOrigin := none,
       body := .healthJson "ok" now "Simple MCP Server" "1.0.0" s.counter s.messages.length }, s)
  else if pathname = "/" then
    ({ status := 200, contentType := some "text/plain", corsAllowOrigin := none,
       body := .text (rootInfoText s) }, s)
  else
    ({ status := 404, contentType := none, corsAllowOrigin := none, body := .text "Not found" }, s)

/-- Extract the JSON-RPC object from a response produced via
`Response.json`. -/
def rpcOf (resp : HttpResponse) : Option JsonRpcResponse :=
  match resp.body with
  | .jsonRpc r => some r
  | _ => none

/-- A JSON-RPC response carries exactly one of `result` and `error`. -/
def resultXorError (r : JsonRpcResponse) : Prop :=
  (r.result.isSome ∧ r.error = none) ∨ (r.result = none ∧ r.error.isSome)

/-- The decoded requests on which dispatch throws while reading a field
of `params` (and the outer `catch` therefore answers): `tools/call` with
`params` absent, and `resources/read` with `params` or `params.uri`
absent. -/
def paramsFault (b : JsonRpcRequest) : Bool :=
  if b.method = "tools/call" then b.params.isNone
  else if b.method = "resources/read" then
    match b.params with
    | none => true
    | some p => p.uri.isNone
  else false

theorem rpcOf_jsonResponse (r : JsonRpcResponse) : rpcOf (jsonResponse r) = some r := rfl

/-- Any successful `callTool` only appends to the message log. -/
theorem callTool_messages_mono (name : Option String) (args : ToolArgs) (now : String)
    (s : ServerState) (r : ServerState × ToolResult) (h : callTool name args now s = .ok r) :
    ∃ t, r.1.messages = s.messages ++ t := by
  unfold callTool at h
  split_ifs at h
  · cases ha : args.amount <;> rw [ha] at h <;> cases h
    exact ⟨_, rfl⟩
  · cases h; exact ⟨_, rfl⟩
  · cases h; exact ⟨_, rfl⟩
  · cases ha : args.message <;> rw [ha] at h <;> cases h
    exact ⟨_, rfl⟩
  · cases h; exact ⟨[], by simp [get_message_count]⟩

/-- C1: From the initial state, `add_to_counter(amount=5)` returns
"Successfully added 5 to counter. New value: 5" and leaves the counter
at 5; a subsequent `reset_counter` leaves the counter at 0 with two
stored messages; a subsequent `get_message_count` returns
"Total messages stored: 2". -/
theorem c1_scenario :
    (add_to_counter 5 initialState).2 =
      { content := [{ type := "text", text := "Successfully added 5 to counter. New value: 5" }] } ∧
    (add_to_counter 5 initialState).1.counter = 5 ∧
    (reset_counter (add_to_counter 5 initialState).1).1.counter = 0 ∧
    (reset_counter (add_to_counter 5 initialState).1).1.messages.length = 2 ∧
    (get_message_count (reset_counter (add_to_counter 5 initialState).1).1).2 =
      { content := [{ type := "text", text := "Total messages stored: 2" }] } := by
  decide

/-- C2: For every starting state and all amounts `a`, `b`, calling
`add_to_counter` with `a` then `b` leaves the counter at the initial
value plus `a` plus `b` and appends exactly the two log entries
"Added {amount}: {old} → {new}", in call order. -/
theorem c2_add_twice (s : ServerState) (a b : Int) :
    (add_to_counter b (add_to_counter a s).1).1.counter = s.counter + a + b ∧
    (add_to_counter b (add_to_counter a s).1).1.messages =
      s.messages ++
        ["Added " ++ toString a ++ ": " ++ toString s.counter ++ " → " ++ toString (s.counter + a),
         "Added " ++ toString b ++ ": " ++ toString (s.counter + a) ++ " → " ++ toString (s.counter + a + b)] := by
  refine ⟨rfl, ?_⟩
  simp [add_to_counter]

/-- C9: `get_message_count` is idempotent and side-effect-free: calling
it `n ≥ 1` times in a row returns the same count text each time and
leaves the server state unchanged. -/
theorem c9_idempotent (s : ServerState) (n : Nat) (_h : 1 ≤ n) :
    repeatTool .get_message_count n s =
      (s, List.replicate n { content := [{ type := "text",
                                           text := "Total messages stored: " ++ toString s.messages.length }] }) := by
  clear _h
  induction n with
  | zero => rfl
  | succ n ih => simp [repeatTool, runTool, get_message_count, ih, List.replicate_succ]

theorem c9_idempotent_witness :
    1 ≤ 3 ∧ repeatTool .get_message_count 3 initialState =
      (initialState, List.replicate 3 { content := [{ type := "text",
                                                      text := "Total messages stored: " ++ toString initialState.messages.length }] }) :=
  ⟨by decide, c9_idempotent initialState 3 (by decide)⟩

/-- C6: A POST to `/mcp` whose body is not parseable as JSON yields the
JSON-RPC error with code -32700 and no `id` and no `result` field, no
handler runs, and the server state is unchanged. -/
theorem c6_malformed_body (now : String) (s : ServerState) :
    fetchHandler "/mcp" "POST" none now s = (jsonResponse parseErrorResponse, s) ∧
    parseErrorResponse.error = some { code := -32700, message := "Parse error" } ∧
    parseErrorResponse.id = none ∧ parseErrorResponse.result = none :=
  ⟨rfl, rfl, rfl, rfl⟩

/-- C10: A decoded `tools/call` or `resources/read` request with
`params` absent is answered by the catch branch's -32700 "Parse error"
response (the `TypeError` from reading `body.params.name` /
`body.params.uri` lands in the same `catch` as a JSON parse failure),
and the state is unchanged. -/
theorem c10_missing_params (id : Option JsonId) (now : String) (s : ServerState) :
    handleRequest "POST" (some { id := id, method := "tools/call", params := none }) now s
      = (jsonResponse parseErrorResponse, s) ∧
    handleRequest "POST" (some { id := id, method := "resources/read", params := none }) now s
      = (jsonResponse parseErrorResponse, s) :=
  ⟨rfl, rfl⟩

/-- C4 (code evaluated at the failing input): in the SDK variant the
`messages` resource joins the log with the literal two-character
sequence backslash-`n` (`join("\\n")`), not with a newline; the agent
variant joins with a genuine newline.  State reached by two
`reset_counter` calls from the initial state. -/
theorem c4_sdk_join_not_newline :
    messagesResource (reset_counter (reset_counter initialState).1).1 =
      { contents := [{ uri := "mcp://resource/messages",
                       text := "Counter reset to 0\\nCounter reset to 0",
                       mimeType := "text/plain" }] } ∧
    "\\n".intercalate (reset_counter (reset_counter initialState).1).1.messages ≠
      "\n".intercalate (reset_counter (reset_counter initialState).1).1.messages ∧
    messagesResourceAgent "mcp://resource/messages" (reset_counter (reset_counter initialState).1).1 =
      { contents := [{ uri := "mcp://resource/messages",
                       text := "Counter reset to 0\nCounter reset to 0",
                       mimeType := "text/plain" }] } :=
  ⟨rfl, by decide, rfl⟩

/-- `handleRequest` only ever appends to the message log. -/
theorem handleRequest_messages_mono (httpMethod : String) (body : Option JsonRpcRequest)
    (now : String) (s : ServerState) :
    ∃ t, (handleRequest httpMethod body now s).2.messages = s.messages ++ t := by
  unfold handleRequest
  split_ifs with h1
  · exact ⟨[], by simp⟩
  · cases body with
    | none => exact ⟨[], by simp⟩
    | some b =>
      simp only
      split_ifs with h2 h3 h4 h5 h6
      · exact ⟨[], by simp⟩
      · exact ⟨[], by simp⟩
      · cases hp : b.params with
        | none => exact ⟨[], by simp⟩
        | some p =>
          cases hc : callTool p.name (p.arguments.getD {}) now s with
          | ok r =>
            obtain ⟨t, ht⟩ := callTool_messages_mono p.name (p.arguments.getD {}) now s r hc
            exact ⟨t, by simp [hc, ht]⟩
          | error e => exact ⟨[], by simp [hc]⟩
      · exact ⟨[], by simp⟩
      · cases hp : b.params with
        | none => exact ⟨[], by simp⟩
        | some p =>
          cases hu : p.uri with
          | none => exact ⟨[], by simp [hu]⟩
          | some resourceUri =>
            simp only [hu]
            cases hr : readResource ((resourceUri.splitOn "/").getLastD "") s with
            | ok r => exact ⟨[], by simp [hr]⟩
            | error e => exact ⟨[], by simp [hr]⟩
      · exact ⟨[], by simp⟩

/-- C3: `reset_counter` sets the counter to 0 and appends exactly the
log entry "Counter reset to 0", leaving every prior message in place;
moreover no tool invocation and no request handled by the server ever
removes or truncates entries of the message log. -/
theorem c3_reset_and_log_monotone :
    (∀ s : ServerState, (reset_counter s).1.counter = 0 ∧
      (reset_counter s).1.messages = s.messages ++ ["Counter reset to 0"]) ∧
    (∀ (op : ToolOp) (s : ServerState), ∃ t, (runTool op s).1.messages = s.messages ++ t) ∧
    (∀ (pathname httpMethod : String) (body : Option JsonRpcRequest) (now : String)
      (s : ServerState),
      ∃ t, (fetchHandler pathname httpMethod body now s).2.messages = s.messages ++ t) := by
  refine ⟨fun s => ⟨rfl, rfl⟩, ?_, ?_⟩
  · intro op s
    cases op with
    | add_to_counter a => exact ⟨_, rfl⟩
    | reset_counter => exact ⟨_, rfl⟩
    | get_time now => exact ⟨_, rfl⟩
    | send_message ts m => exact ⟨_, rfl⟩
    | get_message_count => exact ⟨[], by simp [runTool, get_message_count]⟩
  · intro pathname httpMethod body now s
    unfold fetchHandler
    split_ifs with h1 h2 h3
    · exact handleRequest_messages_mono httpMethod body now s
    · exact ⟨[], by simp⟩
    · exact ⟨[], by simp⟩
    · exact ⟨[], by simp⟩

/-- C7: A well-formed `tools/call` request whose `params.name` is not a
registered tool name gets a JSON-RPC error response with code -32603 and
no `result` field (the thrown fault is caught by the inner
`try`/`catch`, lines 266-282), and the server state is unchanged. -/
theorem c7_unknown_tool (id : Option JsonId) (name : String) (args : Option ToolArgs)
    (now : String) (s : ServerState) (h : name ∉ registeredToolNames) :
    ∃ r, rpcOf (handleRequest "POST"
        (some { id := id, method := "tools/call",
                params := some { name := some name, uri := none, arguments := args } }) now s).1
      = some r ∧
      r.id = id ∧ r.result = none ∧ (∃ e, r.error = some e ∧ e.code = -32603) ∧
      (handleRequest "POST"
        (some { id := id, method := "tools/call",
                params := some { name := some name, uri := none, arguments := args } }) now s).2
      = s := by
  simp only [registeredToolNames, registeredTools, List.map, List.mem_cons,
    List.not_mem_nil, or_false, not_or] at h
  obtain ⟨h1, h2, h3, h4, h5⟩ := h
  have hred : handleRequest "POST"
      (some { id := id, method := "tools/call",
              params := some { name := some name, uri := none, arguments := args } }) now s
      = (jsonResponse { jsonrpc := "2.0", id := id, result := none,
                        error := some { code := -32603,
                                        message := "Tool execution failed: " ++ "Tool not found" } }, s) := by
    simp [handleRequest, callTool, h1, h2, h3, h4, h5]
  rw [hred]
  exact ⟨_, rfl, rfl, rfl, ⟨_, rfl, rfl⟩, rfl⟩

theorem c7_unknown_tool_witness :
    "frobnicate" ∉ registeredToolNames ∧
    (∃ r, rpcOf (handleRequest "POST"
        (some { id := some (JsonId.num 1), method := "tools/call",
                params := some { name := some "frobnicate", uri := none, arguments := none } })
        "2025-01-01T00:00:00.000Z" initialState).1
      = some r ∧
      r.id = some (JsonId.num 1) ∧ r.result = none ∧
      (∃ e, r.error = some e ∧ e.code = -32603) ∧
      (handleRequest "POST"
        (some { id := some (JsonId.num 1), method := "tools/call",
                params := some { name := some "frobnicate", uri := none, arguments := none } })
        "2025-01-01T00:00:00.000Z" initialState).2
      = initialState) :=
  ⟨by decide, c7_unknown_tool (some (JsonId.num 1)) "frobnicate" none
    "2025-01-01T00:00:00.000Z" initialState (by decide)⟩

/-- C5 counterexample: the decoded request
`{ id: 7, method: "tools/call" }` (no `params`) is dispatched by
`handleRequest`, but the response — the catch branch's -32700 object —
does not carry the request's id: its `id` field is absent. -/
theorem c5_counterexample :
    rpcOf (handleRequest "POST"
        (some { id := some (JsonId.num 7), method := "tools/call", params := none })
        "2025-01-01T00:00:00.000Z" initialState).1 = some parseErrorResponse ∧
    parseErrorResponse.id ≠ some (JsonId.num 7) :=
  ⟨rfl, by decide⟩

/-- C5 (amended): every decoded JSON-RPC request dispatched by
`handleRequest` is answered with exactly one of `result` and `error`;
the request's `id` is echoed unchanged except when dispatch throws
reading a field of a missing `params` (`tools/call` with no `params`,
`resources/read` with no `params` or no `params.uri`), in which case the
response is the catch branch's -32700 object, which carries no `id`. -/
theorem c5_amended (b : JsonRpcRequest) (now : String) (s : ServerState) :
    ∃ r, rpcOf (handleRequest "POST" (some b) now s).1 = some r ∧
      resultXorError r ∧
      (paramsFault b = false → r.id = b.id) ∧
      (paramsFault b = true → r = parseErrorResponse) := by
  by_cases h1 : b.method = "initialize"
  · have hred : handleRequest "POST" (some b) now s
        = (jsonResponse { jsonrpc := "2.0", id := b.id,
                          result := some (.initResult "2024-11-05" "Simple MCP Server" "1.0.0"),
                          error := none }, s) := by
      simp [handleRequest, h1]
    have hf : paramsFault b = false := by simp [paramsFault, h1]
    rw [hred]
    exact ⟨_, rfl, Or.inl ⟨rfl, rfl⟩, fun _ => rfl, fun hc => by rw [hf] at hc; cases hc⟩
  by_cases h2 : b.method = "tools/list"
  · have hred : handleRequest "POST" (some b) now s
        = (jsonResponse { jsonrpc := "2.0", id := b.id,
                          result := some (.toolsList registeredTools), error := none }, s) := by
      simp [handleRequest, h1, h2]
    have hf : paramsFault b = false := by simp [paramsFault, h2]
    rw [hred]
    exact ⟨_, rfl, Or.inl ⟨rfl, rfl⟩, fun _ => rfl, fun hc => by rw [hf] at hc; cases hc⟩
  by_cases h3 : b.method = "tools/call"
  · cases hp : b.params with
    | none =>
      have hred : handleRequest "POST" (some b) now s = (jsonResponse parseErrorResponse, s) := by
        simp [handleRequest, h1, h2, h3, hp]
      have hf : paramsFault b = true := by simp [paramsFault, h3, hp]
      rw [hred]
      exact ⟨_, rfl, Or.inr ⟨rfl, rfl⟩, (fun hc => by rw [hf] at hc; cases hc), fun _ => rfl⟩
    | some p =>
      have hf : paramsFault b = false := by simp [paramsFault, h3, hp]
      cases hc : callTool p.name (p.arguments.getD {}) now s with
      | ok r =>
        have hred : handleRequest "POST" (some b) now s
            = (jsonResponse { jsonrpc := "2.0", id := b.id,
                              result := some (.callResult r.2), error := none }, r.1) := by
          simp [handleRequest, h1, h2, h3, hp, hc]
        rw [hred]
        exact ⟨_, rfl, Or.inl ⟨rfl, rfl⟩, fun _ => rfl, fun hcc => by rw [hf] at hcc; cases hcc⟩
      | error e =>
        have hred : handleRequest "POST" (some b) now s
            = (jsonResponse { jsonrpc := "2.0", id := b.id, result := none,
                              error := some { code := -32603,
                                              message := "Tool execution failed: " ++ e } }, s) := by
          simp [handleRequest, h1, h2, h3, hp, hc]
        rw [hred]
        exact ⟨_, rfl, Or.inr ⟨rfl, rfl⟩, fun _ => rfl, fun hcc => by rw [hf] at hcc; cases hcc⟩
  by_cases h4 : b.method = "resources/list"
  · have hred : handleRequest "POST" (some b) now s
        = (jsonResponse { jsonrpc := "2.0", id := b.id,
                          result := some (.resourcesList registeredResources), error := none }, s) := by
      simp [handleRequest, h1, h2, h3, h4]
    have hf : paramsFault b = false := by simp [paramsFault, h3, h4]
    rw [hred]
    exact ⟨_, rfl, Or.inl ⟨rfl, rfl⟩, fun _ => rfl, fun hc => by rw [hf] at hc; cases hc⟩
  by_cases h5 : b.method = "resources/read"
  · cases hp : b.params with
    | none =>
      have hred : handleRequest "POST" (some b) now s = (jsonResponse parseErrorResponse, s) := by
        simp [handleRequest, h1, h2, h3, h4, h5, hp]
      have hf : paramsFault b = true := by simp [paramsFault, h3, h5, hp]
      rw [hred]
      exact ⟨_, rfl, Or.inr ⟨rfl, rfl⟩, (fun hc => by rw [hf] at hc; cases hc), fun _ => rfl⟩
    | some p =>
      cases hu : p.uri with
      | none =>
        have hred : handleRequest "POST" (some b) now s = (jsonResponse parseErrorResponse, s) := by
          simp [handleRequest, h1, h2, h3, h4, h5, hp, hu]
        have hf : paramsFault b = true := by simp [paramsFault, h3, h5, hp, hu]
        rw [hred]
        exact ⟨_, rfl, Or.inr ⟨rfl, rfl⟩, (fun hc => by rw [hf] at hc; cases hc), fun _ => rfl⟩
      | some resourceUri =>
        have hf : paramsFault b = false := by simp [paramsFault, h3, h5, hp, hu]
        cases hr : readResource ((resourceUri.splitOn "/").getLast?.getD "") s with
        | ok r =>
          have hred : handleRequest "POST" (some b) now s
              = (jsonResponse { jsonrpc := "2.0", id := b.id,
                                result := some (.readResult r), error := none }, s) := by
            simp [handleRequest, h1, h2, h3, h4, h5, hp, hu, hr]
          rw [hred]
          exact ⟨_, rfl, Or.inl ⟨rfl, rfl⟩, fun _ => rfl, fun hc => by rw [hf] at hc; cases hc⟩
        | error e =>
          have hred : handleRequest "POST" (some b) now s
              = (jsonResponse { jsonrpc := "2.0", id := b.id, result := none,
                                error := some { code := -32603,
                                                message := "Resource read failed: " ++ e } }, s) := by
            simp [handleRequest, h1, h2, h3, h4, h5, hp, hu, hr]
          rw [hred]
          exact ⟨_, rfl, Or.inr ⟨rfl, rfl⟩, fun _ => rfl, fun hc => by rw [hf] at hc; cases hc⟩
  · have hred : handleRequest "POST" (some b) now s
        = (jsonResponse { jsonrpc := "2.0", id := b.id, result := none,
                          error := some { code := -32601,
                                          message := "Method not found: " ++ b.method } }, s) := by
      simp [handleRequest, h1, h2, h3, h4, h5]
    have hf : paramsFault b = false := by simp [paramsFault, h3, h5]
    rw [hred]
    exact ⟨_, rfl, Or.inr ⟨rfl, rfl⟩, fun _ => rfl, fun hc => by rw [hf] at hc; cases hc⟩

theorem c5_amended_witness :
    ∃ r, rpcOf (handleRequest "POST"
        (some { id := some (JsonId.num 3), method := "initialize", params := none })
        "2025-01-01T00:00:00.000Z" initialState).1 = some r ∧
      resultXorError r ∧
      (paramsFault { id := some (JsonId.num 3), method := "initialize", params := none } = false →
        r.id = some (JsonId.num 3)) ∧
      (paramsFault { id := some (JsonId.num 3), method := "initialize", params := none } = true →
        r = parseErrorResponse) :=
  c5_amended { id := some (JsonId.num 3), method := "initialize", params := none }
    "2025-01-01T00:00:00.000Z" initialState

/-- A non-POST request to the transport gets the 405 response. -/
theorem handleRequest_not_post (httpMethod : String) (h : httpMethod ≠ "POST")
    (body : Option JsonRpcRequest) (now : String) (s : ServerState) :
    handleRequest httpMethod body now s =
      ({ status := 405, contentType := none, corsAllowOrigin := none,
         body := .text "Method not allowed" }, s) := by
  unfold handleRequest
  rw [if_pos h]

/-- Every POST response of the transport comes from `Response.json`:
no CORS header is set and the content type is `application/json`. -/
theorem handleRequest_post_headers (body : Option JsonRpcRequest) (now : String)
    (s : ServerState) :
    (handleRequest "POST" body now s).1.corsAllowOrigin = none ∧
    (handleRequest "POST" body now s).1.contentType = some "application/json" := by
  cases body with
  | none => exact ⟨rfl, rfl⟩
  | some b =>
    by_cases h1 : b.method = "initialize"
    · constructor <;> simp [handleRequest, h1, jsonResponse]
    by_cases h2 : b.method = "tools/list"
    · constructor <;> simp [handleRequest, h1, h2, jsonResponse]
    by_cases h3 : b.method = "tools/call"
    · cases hp : b.params with
      | none => constructor <;> simp [handleRequest, h1, h2, h3, hp, jsonResponse]
      | some p =>
        cases hc : callTool p.name (p.arguments.getD {}) now s with
        | ok r => constructor <;> simp [handleRequest, h1, h2, h3, hp, hc, jsonResponse]
        | error e => constructor <;> simp [handleRequest, h1, h2, h3, hp, hc, jsonResponse]
    by_cases h4 : b.method = "resources/list"
    · constructor <;> simp [handleRequest, h1, h2, h3, h4, jsonResponse]
    by_cases h5 : b.method = "resources/read"
    · cases hp : b.params with
      | none => constructor <;> simp [handleRequest, h1, h2, h3, h4, h5, hp, jsonResponse]
      | some p =>
        cases hu : p.uri with
        | none => constructor <;> simp [handleRequest, h1, h2, h3, h4, h5, hp, hu, jsonResponse]
        | some resourceUri =>
          cases hr : readResource ((resourceUri.splitOn "/").getLast?.getD "") s with
          | ok r =>
            constructor <;> simp [handleRequest, h1, h2, h3, h4, h5, hp, hu, hr, jsonResponse]
          | error e =>
            constructor <;> simp [handleRequest, h1, h2, h3, h4, h5, hp, hu, hr, jsonResponse]
    · constructor <;> simp [handleRequest, h1, h2, h3, h4, h5, jsonResponse]

/-- C8 counterexample: a POST to `/mcp` is answered without any
`Access-Control-Allow-Origin` header, and an OPTIONS request to `/mcp`
gets HTTP 405 with body "Method not allowed" — not an empty-body CORS
preflight response. -/
theorem c8_counterexample :
    (fetchHandler "/mcp" "POST"
        (some { id := some (JsonId.num 1), method := "initialize", params := none })
        "2025-01-01T00:00:00.000Z" initialState).1.corsAllowOrigin ≠ some "*" ∧
    (fetchHandler "/mcp" "OPTIONS" none "2025-01-01T00:00:00.000Z" initialState).1 =
      { status := 405, contentType := none, corsAllowOrigin := none,
        body := HttpBody.text "Method not allowed" } ∧
    HttpBody.text "Method not allowed" ≠ HttpBody.text "" :=
  ⟨by decide, rfl, by decide⟩

/-- C8 (amended): the code sets no CORS header on any response; a POST
to `/mcp` is answered with `Content-Type: application/json`, and an
OPTIONS request to `/mcp` is answered by the transport's method check
with HTTP 405 and body "Method not allowed" (OPTIONS requests to other
paths are routed like any other method). -/
theorem c8_amended (pathname httpMethod : String) (body : Option JsonRpcRequest)
    (now : String) (s : ServerState) :
    (fetchHandler pathname httpMethod body now s).1.corsAllowOrigin = none ∧
    (pathname = "/mcp" → httpMethod = "POST" →
      (fetchHandler pathname httpMethod body now s).1.contentType = some "application/json") ∧
    (pathname = "/mcp" → httpMethod = "OPTIONS" →
      (fetchHandler pathname httpMethod body now s).1 =
        { status := 405, contentType := none, corsAllowOrigin := none,
          body := HttpBody.text "Method not allowed" }) := by
  refine ⟨?_, ?_, ?_⟩
  · by_cases hp1 : pathname = "/mcp"
    · subst hp1
      by_cases hm : httpMethod = "POST"
      · subst hm
        exact (handleRequest_post_headers body now s).1
      · have h405 := handleRequest_not_post httpMethod hm body now s
        show (handleRequest httpMethod body now s).1.corsAllowOrigin = none
        rw [h405]
    · by_cases hp2 : pathname = "/health"
      · subst hp2; rfl
      · by_cases hp3 : pathname = "/"
        · subst hp3; rfl
        · simp [fetchHandler, hp1, hp2, hp3]
  · intro h1 h2
    subst h1; subst h2
    exact (handleRequest_post_headers body now s).2
  · intro h1 h2
    subst h1; subst h2
    rfl

theorem c8_amended_witness :
    (fetchHandler "/mcp" "POST" none "2025-01-01T00:00:00.000Z" initialState).1.corsAllowOrigin
      = none ∧
    ("/mcp" = "/mcp" → "POST" = "POST" →
      (fetchHandler "/mcp" "POST" none "2025-01-01T00:00:00.000Z" initialState).1.contentType
        = some "application/json") ∧
    ("/mcp" = "/mcp" → "POST" = "OPTIONS" →
      (fetchHandler "/mcp" "POST" none "2025-01-01T00:00:00.000Z" initialState).1 =
        { status := 405, contentType := none, corsAllowOrigin := none,
          body := HttpBody.text "Method not allowed" }) :=
  c8_amended "/mcp" "POST" none "2025-01-01T00:00:00.000Z" initialState
